import Mathlib

/-!
Verification development for the FlowNova frontend (flow_nova repository).

Each definition below is a shallow embedding of a function, type declaration
or React state machine from the repository's TypeScript source.  The source
file and symbol are named in the doc comment of every definition.  Theorems
check the sentences of the written specification against these embeddings.
-/

/-- A small JSON value model, standing for the `Record<string, any>` /
arbitrary JSON values that flow through the frontend services. -/
inductive Json where
  | null : Json
  | bool (b : Bool) : Json
  | num (n : Int) : Json
  | str (s : String) : Json
  | arr (xs : List Json) : Json
  | obj (fields : List (String × Json)) : Json
deriving Repr

/-- An HTTP request as assembled by the frontend service layer:
method, full URL, and (for POST/PUT) the JSON body. -/
structure HttpRequest where
  method : String
  url : String
  body : Option Json
deriving Repr

/-- Base URL constant `API_URL` of `src/services/tool.ts` /
`src/services/workflow.ts` (default value). -/
def API_URL : String := "http://localhost:8000"

/-- Base URL constant `WS_URL` of `src/hooks/useWorkflowWebSocket.ts`
(default value). -/
def WS_URL : String := "ws://localhost:8000"

/- ------------------------------------------------------------------
Node components and their reactflow handles
(C1, C7: src/components/workflow-nodes/*.tsx)
------------------------------------------------------------------ -/

/-- The two kinds of reactflow `Handle`: `type="source"` and
`type="target"`. -/
inductive HandleType where
  | source : HandleType
  | target : HandleType
deriving Repr, DecidableEq, BEq

/-- One `<Handle …>` element rendered by a node component: its type and
its optional `id` attribute (reactflow stores this id as the edge's
`sourceHandle` / `targetHandle` when a connection is drawn from it). -/
structure NodeHandle where
  type : HandleType
  id : Option String
deriving Repr, DecidableEq, BEq

/-- Handles rendered by `StartNode`
(src/components/workflow-nodes/StartNode.tsx): one `source` handle,
no `id`, and no `target` handle at all. -/
def StartNode.handles : List NodeHandle :=
  [⟨HandleType.source, none⟩]

/-- Handles rendered by `EndNode`
(src/components/workflow-nodes/EndNode.tsx): one `target` handle,
no `id`, and no `source` handle at all. -/
def EndNode.handles : List NodeHandle :=
  [⟨HandleType.target, none⟩]

/-- Handles rendered by `IfElseNode`
(src/components/workflow-nodes/IfElseNode.tsx): a `target` input handle
and exactly two `source` handles with ids `"true"` and `"false"`. -/
def IfElseNode.handles : List NodeHandle :=
  [⟨HandleType.target, none⟩,
   ⟨HandleType.source, some "true"⟩,
   ⟨HandleType.source, some "false"⟩]

/-- Handles rendered by `GuardrailsNode`
(src/components/workflow-nodes/GuardrailsNode.tsx, the module resolved
by the editor's import `@/components/workflow-nodes/GuardrailsNode`):
a `target` input handle and exactly two `source` handles with ids
`"pass"` and `"fail"`. -/
def GuardrailsNode.handles : List NodeHandle :=
  [⟨HandleType.target, none⟩,
   ⟨HandleType.source, some "pass"⟩,
   ⟨HandleType.source, some "fail"⟩]

/-- Handles rendered by `AgentNode`
(src/components/workflow-nodes/AgentNode.tsx): one `target` and one
`source` handle, neither with an `id`. -/
def AgentNode.handles : List NodeHandle :=
  [⟨HandleType.target, none⟩, ⟨HandleType.source, none⟩]

/-- Handles rendered by `CognitiveNode`
(src/components/workflow-nodes/CognitiveNode.tsx): one `target` and one
`source` handle, neither with an `id`. -/
def CognitiveNode.handles : List NodeHandle :=
  [⟨HandleType.target, none⟩, ⟨HandleType.source, none⟩]

/-- The `customNodeTypes` registry of the workflow editor
(`WorkflowEditor`, pages/app/workflows/[id].tsx): node type string →
handle list of the registered component.  The `UserApprovalNode` and
`ForkNode` component sources are not part of this snapshot; they are
mapped to the empty handle list, which no theorem below depends on. -/
def customNodeTypes : String → List NodeHandle
  | "start" => StartNode.handles
  | "end" => EndNode.handles
  | "agent" => AgentNode.handles
  | "if_else" => IfElseNode.handles
  | "guardrails" => GuardrailsNode.handles
  | "cognitive" => CognitiveNode.handles
  | _ => []

/-- Whether the component with handle list `hs` exposes a `source`
connector whose id is `hid` — the condition for reactflow to let the
user start a connection producing `sourceHandle = hid`. -/
def hasSourceHandle (hs : List NodeHandle) (hid : Option String) : Bool :=
  hs.any (fun h => h.type == HandleType.source && h.id == hid)

/-- Whether the component with handle list `hs` exposes a `target`
connector whose id is `hid`. -/
def hasTargetHandle (hs : List NodeHandle) (hid : Option String) : Bool :=
  hs.any (fun h => h.type == HandleType.target && h.id == hid)

/-- An editor-drawn connection (the `onConnect`/`addEdge` path of
`WorkflowEditor`) is only possible when the source node's component
renders a source handle with id `sh` and the target node's component
renders a target handle with id `th`. -/
def isValidConnection (sourceType targetType : String)
    (sh th : Option String) : Bool :=
  hasSourceHandle (customNodeTypes sourceType) sh &&
    hasTargetHandle (customNodeTypes targetType) th

/- ------------------------------------------------------------------
Workflow service layer (src/services/workflow.ts)
------------------------------------------------------------------ -/

/-- The `WorkflowRun` record as declared by the client for the response
of `GET /api/workflows/{id}/runs` (src/services/workflow.ts,
`interface WorkflowRun`).  `input_json` holds the run's initial input;
`output_json` is nullable. -/
structure WorkflowRun where
  id : String
  workflow_id : String
  node_id : String
  input_json : Json
  output_json : Option Json
  created_at : String
  updated_at : String
deriving Repr

/-- The declared field names of `interface WorkflowRun`, in source
order.  This is the client's complete model of a Run returned by
`GET /api/workflows/{id}/runs`. -/
def workflowRunFields : List String :=
  ["id", "workflow_id", "node_id", "input_json", "output_json",
   "created_at", "updated_at"]

/-- The `WorkflowLedgerEntry` record as declared by the client for the
response of `GET /api/runs/{run_id}/ledger` (src/services/workflow.ts,
`interface WorkflowLedgerEntry`). -/
structure WorkflowLedgerEntry where
  id : String
  workflow_id : String
  node_id : String
  run_id : String
  node_type : String
  input_json : Json
  output_json : Option Json
  tool_calls : Option Json
  created_at : String
  updated_at : String
deriving Repr

/-- The declared field names of `interface WorkflowLedgerEntry`, in
source order. -/
def workflowLedgerEntryFields : List String :=
  ["id", "workflow_id", "node_id", "run_id", "node_type", "input_json",
   "output_json", "tool_calls", "created_at", "updated_at"]

/-- `RunHistoryPanel` (src/components/RunHistoryPanel.tsx) renders the
ledger entries returned by `getRunLedger` exactly in the order received
— `selectedRunLedger.map((entry, idx) => …)` with the visible number
`idx + 1` — applying no sort. -/
def renderLedger (entries : List WorkflowLedgerEntry) :
    List (Nat × WorkflowLedgerEntry) :=
  (entries.enum).map (fun p => (p.1 + 1, p.2))

/-- Request assembled by `WorkflowService.executeWorkflow`
(src/services/workflow.ts): `POST {API_URL}/api/workflows/{id}/execute`
with the caller's `inputData` serialized unchanged as the body. -/
def executeWorkflow (workflowId : String) (inputData : Json) :
    HttpRequest :=
  { method := "POST"
    url := API_URL ++ "/api/workflows/" ++ workflowId ++ "/execute"
    body := some inputData }

/-- The response type `{ run_id: string; message: string }` declared for
`executeWorkflow`. -/
structure ExecuteResponse where
  run_id : String
  message : String
deriving Repr, DecidableEq

/-- The response type `{ success: boolean; message: string;
run_id: string }` declared for `approveNode`. -/
structure ApproveResponse where
  success : Bool
  message : String
  run_id : String
deriving Repr, DecidableEq

/-- Request assembled by `WorkflowService.approveNode`
(src/services/workflow.ts): `POST
{API_URL}/api/workflows/{workflowId}/runs/{runId}/nodes/{nodeId}/approve`
with body `{decision}`. -/
def approveNode (workflowId runId nodeId decision : String) :
    HttpRequest :=
  { method := "POST"
    url := API_URL ++ "/api/workflows/" ++ workflowId ++ "/runs/" ++
      runId ++ "/nodes/" ++ nodeId ++ "/approve"
    body := some (Json.obj [("decision", Json.str decision)]) }

/-- Outcome of `approveNode`'s response handling: on `!response.ok` it
throws (`Except.error`); on an OK response it returns the parsed
`ApproveResponse`. -/
def approveNodeResult (responseOk : Bool) (payload : ApproveResponse) :
    Except String ApproveResponse :=
  if responseOk then Except.ok payload
  else Except.error "Failed to approve node"

/- ------------------------------------------------------------------
Workflow editor approval flow (pages/app/workflows/[id].tsx)
------------------------------------------------------------------ -/

/-- The slice of `WorkflowEditor` state that drives the approval flow:
`currentRunId` and the `approvalModal` state object. -/
structure EditorApprovalState where
  currentRunId : Option String
  modalOpen : Bool
  modalMessage : String
  modalNodeId : String
deriving Repr, DecidableEq

/-- A WebSocket event as consumed by the editor's approval callbacks
(fields of interest only; each may be absent). -/
structure ApprovalEvent where
  run_id : Option String
  node_id : Option String
  message : Option String
deriving Repr, DecidableEq

/-- `handleRunStarted` (WorkflowEditor): records `event.run_id` as the
current run when present (the editor also opens the history panel and
marks execution, not modelled here). -/
def handleRunStarted (st : EditorApprovalState) (ev : ApprovalEvent) :
    EditorApprovalState :=
  match ev.run_id with
  | some r => { st with currentRunId := some r }
  | none => st

/-- `handleApprovalNeeded` (WorkflowEditor): opens the approval modal
with the event's message and node id.  The event's `run_id` is NOT
stored — only `message` and `node_id` reach the modal state. -/
def handleApprovalNeeded (st : EditorApprovalState)
    (ev : ApprovalEvent) : EditorApprovalState :=
  { st with
    modalOpen := true
    modalMessage :=
      ev.message.getD "Do you want to continue with this workflow?"
    modalNodeId := ev.node_id.getD "" }

/-- `handleApproval` (WorkflowEditor): guards on `token`, `id`,
`currentRunId` and `approvalModal.nodeId` being present (non-empty);
then calls `approveNode(id, currentRunId, approvalModal.nodeId,
decision)`.  On success the modal is closed and reset; on a thrown
error the modal state is left unchanged (only a toast is shown).
Returns the request that was issued, if any, with the new state. -/
def handleApproval (token workflowId : Option String)
    (st : EditorApprovalState) (decision : String)
    (responseOk : Bool) : Option HttpRequest × EditorApprovalState :=
  match token, workflowId, st.currentRunId with
  | some _, some wf, some runId =>
    if st.modalNodeId = "" then (none, st)
    else
      let req := approveNode wf runId st.modalNodeId decision
      if responseOk then
        (some req,
          { st with modalOpen := false, modalMessage := "",
                    modalNodeId := "" })
      else (some req, st)
  | _, _, _ => (none, st)

/-- `handleExecuteWorkflow` (WorkflowEditor): issues
`executeWorkflow(id, inputData)`; on success, records `result.run_id`
as the current run when it is truthy (non-empty). -/
def handleExecuteWorkflow (st : EditorApprovalState)
    (result : Option ExecuteResponse) : EditorApprovalState :=
  match result with
  | some r => if r.run_id = "" then st
              else { st with currentRunId := some r.run_id }
  | none => st

/- ------------------------------------------------------------------
WebSocket hook (src/hooks/useWorkflowWebSocket.ts)
------------------------------------------------------------------ -/

/-- The WebSocket URL assembled by `connect`:
`{WS_URL}/api/ws/workflows/{workflowId}?auth-token={token}`. -/
def wsUrl (workflowId token : String) : String :=
  WS_URL ++ "/api/ws/workflows/" ++ workflowId ++ "?auth-token=" ++ token

/-- Per-node execution state (`NodeExecutionState`). -/
inductive NodeExecutionState where
  | idle : NodeExecutionState
  | executing : NodeExecutionState
  | completed : NodeExecutionState
  | error : NodeExecutionState
deriving Repr, DecidableEq

/-- One entry of `NodeExecutionStatus` (per node id). -/
structure NodeStatusEntry where
  state : NodeExecutionState
  startTime : Option String
  endTime : Option String
  duration : Option Int
deriving Repr, DecidableEq

/-- The `NodeExecutionStatus` map, node id → status entry, modelled as
an association list; `{...prev, [id]: v}` is an insert-or-replace. -/
abbrev NodeExecutionStatus := List (String × NodeStatusEntry)

/-- The spread-update `{...prev, [id]: v}` on the status map: replaces
the binding for `id` or appends it. -/
def statusUpdate (m : NodeExecutionStatus) (id : String)
    (v : NodeStatusEntry) : NodeExecutionStatus :=
  if (m.map Prod.fst).contains id then
    m.map (fun p => if p.1 = id then (id, v) else p)
  else m ++ [(id, v)]

/-- Lookup in the status map (`prev[data.node_id!]?`). -/
def statusGet (m : NodeExecutionStatus) (id : String) :
    Option NodeStatusEntry :=
  (m.find? (fun p => p.1 = id)).map Prod.snd

/-- A parsed WebSocket frame (`WebSocketEvent`): only the fields the
`onmessage` switch reads are modelled. -/
structure WebSocketEvent where
  event_type : String
  node_id : Option String
  timestamp : Option String
  duration : Option Int
deriving Repr, DecidableEq

/-- Which user callback the `onmessage` switch fires for an event. -/
inductive WsCallback where
  | onConnected : WsCallback
  | onRunStarted : WsCallback
  | onNodeStarted : WsCallback
  | onNodeCompleted : WsCallback
  | onNodeError : WsCallback
  | onRunCompleted : WsCallback
  | onApprovalNeeded : WsCallback
deriving Repr, DecidableEq

/-- The `switch (data.event_type)` body of `ws.current.onmessage`:
returns the updated `NodeExecutionStatus` and the list of callbacks
fired.  The `default` branch only logs and changes nothing. -/
def onMessage (status : NodeExecutionStatus) (data : WebSocketEvent) :
    NodeExecutionStatus × List WsCallback :=
  match data.event_type with
  | "connected" => (status, [WsCallback.onConnected])
  | "run_started" => ([], [WsCallback.onRunStarted])
  | "node_started" =>
    (match data.node_id with
     | some nid =>
       statusUpdate status nid
         { state := NodeExecutionState.executing
           startTime := data.timestamp
           endTime := none
           duration := none }
     | none => status,
     [WsCallback.onNodeStarted])
  | "node_completed" =>
    (match data.node_id with
     | some nid =>
       statusUpdate status nid
         { state := NodeExecutionState.completed
           startTime := (statusGet status nid).bind (·.startTime)
           endTime := data.timestamp
           duration := data.duration }
     | none => status,
     [WsCallback.onNodeCompleted])
  | "node_error" =>
    (match data.node_id with
     | some nid =>
       statusUpdate status nid
         { state := NodeExecutionState.error
           startTime := (statusGet status nid).bind (·.startTime)
           endTime := data.timestamp
           duration := none }
     | none => status,
     [WsCallback.onNodeError])
  | "run_completed" => (status, [WsCallback.onRunCompleted])
  | "run_failed" => (status, [WsCallback.onRunCompleted])
  | "approval_needed" =>
    (match data.node_id with
     | some nid =>
       statusUpdate status nid
         { state := NodeExecutionState.executing
           startTime := (statusGet status nid).bind (·.startTime)
           endTime := none
           duration := none }
     | none => status,
     [WsCallback.onApprovalNeeded])
  | _ => (status, [])

/-- The full `onmessage` handler: the frame is first `JSON.parse`d; a
parse failure is caught and nothing changes.  `frame = none` models a
frame that fails to parse. -/
def onMessageFrame (status : NodeExecutionStatus)
    (frame : Option WebSocketEvent) :
    NodeExecutionStatus × List WsCallback :=
  match frame with
  | some data => onMessage status data
  | none => (status, [])

/-- The event kinds the `onmessage` switch has cases for. -/
def recognizedEventTypes : List String :=
  ["connected", "run_started", "node_started", "node_completed",
   "node_error", "run_completed", "run_failed", "approval_needed"]

/-- `maxReconnectAttempts` of `useWorkflowWebSocket`. -/
def maxReconnectAttempts : Nat := 5

/-- `ws.current.onclose`: with the current `reconnectAttempts` counter
`n`, if `n < maxReconnectAttempts` a reconnect is scheduled after
`Math.min(1000 * Math.pow(2, n), 10000)` ms and the counter becomes
`n + 1`; otherwise nothing is scheduled.  Returns (scheduled delay?,
new counter). -/
def onCloseReconnect (n : Nat) : Option Nat × Nat :=
  if n < maxReconnectAttempts then
    (some (min (1000 * 2 ^ n) 10000), n + 1)
  else (none, n)

/-- `ws.current.onopen` resets `reconnectAttempts` to 0. -/
def onOpenReset (_ : Nat) : Nat := 0

/-- Number of reconnects scheduled over `k` consecutive close events
starting from counter `n` (no successful open in between). -/
def reconnectsScheduled : Nat → Nat → Nat
  | _, 0 => 0
  | n, k + 1 =>
    match onCloseReconnect n with
    | (some _, n2) => 1 + reconnectsScheduled n2 k
    | (none, n2) => reconnectsScheduled n2 k

/- ------------------------------------------------------------------
Run-workflow modal (src/components/RunWorkflowModal.tsx)
------------------------------------------------------------------ -/

/-- The literal textarea reset value `"{\n  \n}"` of
`RunWorkflowModal`. -/
def runModalResetText : String := "\x7b\n  \n\x7d"

/-- The state of `RunWorkflowModal` visible to `handleSubmit`: the
textarea contents, the error banner, and whether the modal is open
(the parent's `isRunModalOpen`, closed by `onClose`). -/
structure RunModalState where
  jsonInput : String
  error : Option String
  isOpen : Bool
deriving Repr, DecidableEq

/-- `RunWorkflowModal.handleSubmit`: clears the error, then
`JSON.parse(jsonInput)`.  `parsed = none` models a throwing parse: the
error message is set and neither `onSubmit` nor `onClose` nor the reset
runs.  `parsed = some v` models a successful parse: `onSubmit(v)` is
called (second component of the result), the modal closes, and the
textarea resets. -/
def RunWorkflowModal.handleSubmit (st : RunModalState)
    (parsed : Option Json) : RunModalState × Option Json :=
  match parsed with
  | some v =>
    ({ st with error := none, isOpen := false,
               jsonInput := runModalResetText }, some v)
  | none =>
    ({ st with
        error := some "Invalid JSON format. Please check your input." },
     none)

/- ------------------------------------------------------------------
Tool service and tool-creation form
(src/services/tool.ts, src/components/AddToolModal.tsx)
------------------------------------------------------------------ -/

/-- `interface ToolParameter` of src/services/tool.ts. -/
structure ToolParameter where
  name : String
  description : String
deriving Repr, DecidableEq

/-- `interface CreateToolData` of src/services/tool.ts (request body of
tool creation; `request_body` / `headers` nullable). -/
structure CreateToolData where
  name : String
  description : String
  api_url : String
  method : String
  request_body : Option Json
  headers : Option Json
  parameters : List ToolParameter
deriving Repr

/-- `ToolService.createTool`: if `data.parameters.length > 3` it throws
`"Maximum 3 parameters allowed"` before any `fetch`; otherwise it
issues `POST {API_URL}/api/tools`.  `Except.error` models the throw
happening with no HTTP request made. -/
def createTool (data : CreateToolData) : Except String HttpRequest :=
  if data.parameters.length > 3 then
    Except.error "Maximum 3 parameters allowed"
  else
    Except.ok
      { method := "POST"
        url := API_URL ++ "/api/tools"
        body := some Json.null }

/-- `ToolService.updateTool`: if `data.parameters` is provided and has
more than 3 entries it throws `"Maximum 3 parameters allowed"` before
any `fetch`; otherwise it issues `PUT {API_URL}/api/tools/{toolId}`. -/
def updateTool (toolId : String) (parameters : Option (List ToolParameter)) :
    Except String HttpRequest :=
  match parameters with
  | some ps =>
    if ps.length > 3 then Except.error "Maximum 3 parameters allowed"
    else Except.ok
      { method := "PUT"
        url := API_URL ++ "/api/tools/" ++ toolId
        body := some Json.null }
  | none =>
    Except.ok
      { method := "PUT"
        url := API_URL ++ "/api/tools/" ++ toolId
        body := some Json.null }

/-- Initial `parameters` state of `AddToolModal`: one empty row. -/
def AddToolModal.initialParameters : List ToolParameter :=
  [{ name := "", description := "" }]

/-- `AddToolModal.handleAddParameter`: refuses (sets the error
`"Maximum 3 parameters allowed"`) when 3 rows already exist, else
appends an empty row. -/
def AddToolModal.handleAddParameter (ps : List ToolParameter) :
    List ToolParameter :=
  if ps.length ≥ 3 then ps
  else ps ++ [{ name := "", description := "" }]

/-- `AddToolModal.handleRemoveParameter`: refuses when only one row is
left, else removes the row at `index`. -/
def AddToolModal.handleRemoveParameter (ps : List ToolParameter)
    (index : Nat) : List ToolParameter :=
  if ps.length ≤ 1 then ps
  else (ps.enum.filter (fun p => p.1 ≠ index)).map Prod.snd

/-- `AddToolModal.handleParameterChange`: updates one field of the row
at `index`, never changing the number of rows. -/
def AddToolModal.handleParameterChange (ps : List ToolParameter)
    (index : Nat) (update : ToolParameter → ToolParameter) :
    List ToolParameter :=
  ps.enum.map (fun p => if p.1 = index then update p.2 else p.2)

/-- The user-interface operations that can change the `parameters`
rows of `AddToolModal` between renders. -/
inductive ToolFormOp where
  | add : ToolFormOp
  | remove (index : Nat) : ToolFormOp
  | change (index : Nat) (update : ToolParameter → ToolParameter) :
      ToolFormOp

/-- Applying one form operation to the parameter rows. -/
def applyToolFormOp (ps : List ToolParameter) : ToolFormOp →
    List ToolParameter
  | ToolFormOp.add => AddToolModal.handleAddParameter ps
  | ToolFormOp.remove i => AddToolModal.handleRemoveParameter ps i
  | ToolFormOp.change i u => AddToolModal.handleParameterChange ps i u

/-- A `parameters` state is reachable when some sequence of form
operations produces it from the initial single empty row. -/
def reachableToolForm (ps : List ToolParameter) : Prop :=
  ∃ ops : List ToolFormOp,
    ops.foldl applyToolFormOp AddToolModal.initialParameters = ps

/-- JavaScript's `String.prototype.trim`, modelled structurally:
whitespace is stripped from both ends of the character list. -/
def jsTrim (s : String) : String :=
  ⟨((s.data.dropWhile Char.isWhitespace).reverse.dropWhile
      Char.isWhitespace).reverse⟩

/-- The `validParameters` filter of `AddToolModal.handleSubmit`: keeps
rows whose trimmed name and description are both non-empty. -/
def validParameters (ps : List ToolParameter) : List ToolParameter :=
  ps.filter (fun p => jsTrim p.name ≠ "" && jsTrim p.description ≠ "")

/-- The parameter part of `AddToolModal.handleSubmit`: filters the rows
and throws `"At least one parameter is required"` when none survive;
otherwise the surviving rows are what `onSubmit` places in
`CreateToolData.parameters`. -/
def AddToolModal.submitParameters (ps : List ToolParameter) :
    Except String (List ToolParameter) :=
  let valid := validParameters ps
  if valid.length = 0 then
    Except.error "At least one parameter is required"
  else Except.ok valid

/- ------------------------------------------------------------------
Theorems
------------------------------------------------------------------ -/

/-- C1: For every edge drawable in the editor whose source node is of
type `if_else`, the edge's source handle is `"true"` or `"false"`, and
for every edge whose source node is of type `guardrails`, it is
`"pass"` or `"fail"` — these are the only source connectors the
`IfElseNode` and `GuardrailsNode` components expose. -/
theorem ifElse_guardrails_source_handles (targetType : String)
    (sh th : Option String) :
    (isValidConnection "if_else" targetType sh th = true →
      sh = some "true" ∨ sh = some "false") ∧
    (isValidConnection "guardrails" targetType sh th = true →
      sh = some "pass" ∨ sh = some "fail") := by
  constructor <;> intro h <;> rw [isValidConnection, Bool.and_eq_true] at h
  · have hs := h.1
    simp [hasSourceHandle, customNodeTypes, IfElseNode.handles] at hs
    rcases hs with ⟨h1, _⟩ | ⟨_, h2⟩ | ⟨_, h2⟩
    · exact absurd h1 (by decide)
    · exact Or.inl h2.symm
    · exact Or.inr h2.symm
  · have hs := h.1
    simp [hasSourceHandle, customNodeTypes, GuardrailsNode.handles] at hs
    rcases hs with ⟨h1, _⟩ | ⟨_, h2⟩ | ⟨_, h2⟩
    · exact absurd h1 (by decide)
    · exact Or.inl h2.symm
    · exact Or.inr h2.symm

/-- C1 witness: the connection from an `if_else` node's `"true"`
connector to an `end` node is drawable, and the theorem classifies its
source handle. -/
theorem ifElse_guardrails_source_handles_witness :
    isValidConnection "if_else" "end" (some "true") none = true ∧
    ((some "true" : Option String) = some "true" ∨
      (some "true" : Option String) = some "false") :=
  ⟨by rfl,
    (ifElse_guardrails_source_handles "end" (some "true") none).1
      (by rfl)⟩

/-- C7: No editor-drawn connection can have an `end` node as its
source (the `EndNode` component exposes no source connector) and none
can have a `start` node as its target (the `StartNode` component
exposes no target connector); hence an end node's next-node set stays
empty and a start node never receives input edges. -/
theorem end_no_outgoing_start_no_incoming (sourceType targetType : String)
    (sh th : Option String) :
    isValidConnection "end" targetType sh th = false ∧
    isValidConnection sourceType "start" sh th = false := by
  constructor
  · simp only [isValidConnection, Bool.and_eq_false_iff]
    left
    simp [hasSourceHandle, customNodeTypes, EndNode.handles]
    intro h1
    exact absurd h1 (by decide)
  · simp only [isValidConnection, Bool.and_eq_false_iff]
    right
    simp [hasTargetHandle, customNodeTypes, StartNode.handles]
    intro h1
    exact absurd h1 (by decide)

/-- C2 counterexample: the client's record for a Run returned by
`GET /api/workflows/{id}/runs` declares neither a `status` nor a
`finished_at` field, refuting the claim that every returned Run
carries a status in {running, awaiting_approval, completed, failed}
together with an optional `finished_at`. -/
theorem run_record_lacks_status :
    "status" ∉ workflowRunFields ∧ "finished_at" ∉ workflowRunFields := by
  decide

/-- C2 (amended): every Run value of `GET /api/workflows/{id}/runs`,
as modelled by the client's `WorkflowRun` record, carries the run's
initial input (`input_json`) and creation/update timestamps — but no
`status` field and no `finished_at` field. -/
theorem run_record_fields :
    "input_json" ∈ workflowRunFields ∧
    "created_at" ∈ workflowRunFields ∧
    "updated_at" ∈ workflowRunFields ∧
    "status" ∉ workflowRunFields ∧
    "finished_at" ∉ workflowRunFields := by
  decide

/-- Mapping `Prod.snd` over an enumeration returns the original list. -/
theorem enumFrom_snd {α : Type} :
    ∀ (n : Nat) (l : List α), (l.enumFrom n).map Prod.snd = l
  | _, [] => rfl
  | n, a :: t => by
    simp only [List.enumFrom, List.map_cons, List.cons.injEq, true_and]
    exact enumFrom_snd (n + 1) t

/-- The shifted first components of an enumeration are the consecutive
range starting one above the enumeration base. -/
theorem enumFrom_fst_succ {α : Type} :
    ∀ (n : Nat) (l : List α),
      (l.enumFrom n).map (fun p => p.1 + 1) = List.range' (n + 1) l.length
  | _, [] => rfl
  | n, a :: t => by
    simp only [List.enumFrom, List.map_cons, List.length_cons,
      List.range'_succ, List.cons.injEq, true_and]
    exact enumFrom_fst_succ (n + 1) t

/-- C3 counterexample: the client's record for a LedgerEntry returned
by `GET /api/runs/{run_id}/ledger` declares no `sequence` field,
refuting the claim that every returned LedgerEntry has one. -/
theorem ledger_record_lacks_sequence :
    "sequence" ∉ workflowLedgerEntryFields := by
  decide

/-- C3 (amended): the client's LedgerEntry record carries ids, node
type, input/output/tool-call payloads and timestamps but no `sequence`
field, and the run-history panel presents the entries exactly in the
order the server returned them, numbering the i-th entry i+1. -/
theorem ledger_record_and_order (entries : List WorkflowLedgerEntry) :
    "sequence" ∉ workflowLedgerEntryFields ∧
    "run_id" ∈ workflowLedgerEntryFields ∧
    "node_type" ∈ workflowLedgerEntryFields ∧
    (renderLedger entries).map Prod.snd = entries ∧
    (renderLedger entries).map Prod.fst = List.range' 1 entries.length := by
  refine ⟨by decide, by decide, by decide, ?_, ?_⟩
  · rw [renderLedger, List.map_map]
    have : (Prod.snd ∘ fun p : Nat × WorkflowLedgerEntry => (p.1 + 1, p.2)) =
        Prod.snd := rfl
    rw [this, List.enum, enumFrom_snd]
  · rw [renderLedger, List.map_map]
    have : (Prod.fst ∘ fun p : Nat × WorkflowLedgerEntry => (p.1 + 1, p.2)) =
        fun p : Nat × WorkflowLedgerEntry => p.1 + 1 := rfl
    rw [this, List.enum, enumFrom_fst_succ]

/-- C4 counterexample: the editor sends the approval for its
`currentRunId`, not for the run named by the `approval_needed` event.
Starting with current run `"r1"`, an `approval_needed` event for run
`"r2"` and node `"n1"` followed by an approval produces a request
addressed to run `"r1"` — a different URL than the one for the event's
run `"r2"`. -/
theorem approval_uses_current_run_not_event_run :
    (handleApproval (some "tok") (some "wf")
        (handleApprovalNeeded
          { currentRunId := some "r1", modalOpen := false,
            modalMessage := "", modalNodeId := "" }
          { run_id := some "r2", node_id := some "n1",
            message := some "Proceed?" })
        "yes" true).1 =
      some (approveNode "wf" "r1" "n1" "yes") ∧
    (approveNode "wf" "r1" "n1" "yes").url ≠
      (approveNode "wf" "r2" "n1" "yes").url := by
  constructor
  · rfl
  · decide

/-- C4 (amended): for every decision in {"yes","no"}, approving sends
`POST {API_URL}/api/workflows/{wf}/runs/{r}/nodes/{n}/approve` with
body `{decision}`, where `n` is the node id named by the preceding
`approval_needed` event and `r` is the editor's current run id (from
the execute response or the last `run_started` event — not from the
`approval_needed` event); on an OK response the returned object
carries `success` and `run_id` and the modal closes, while on any
non-OK response `approveNode` throws and the approval modal stays
open. -/
theorem approval_request_and_modal (d tok wf r n : String)
    (_hd : d = "yes" ∨ d = "no") (hn : n ≠ "")
    (st : EditorApprovalState) (hrun : st.currentRunId = some r)
    (ev : ApprovalEvent) (hev : ev.node_id = some n)
    (payload : ApproveResponse) :
    (∀ ok : Bool,
      (handleApproval (some tok) (some wf)
          (handleApprovalNeeded st ev) d ok).1 =
        some { method := "POST"
               url := API_URL ++ "/api/workflows/" ++ wf ++ "/runs/" ++
                 r ++ "/nodes/" ++ n ++ "/approve"
               body := some (Json.obj [("decision", Json.str d)]) }) ∧
    (handleApproval (some tok) (some wf)
        (handleApprovalNeeded st ev) d true).2.modalOpen = false ∧
    approveNodeResult true payload = Except.ok payload ∧
    approveNodeResult false payload =
      Except.error "Failed to approve node" ∧
    (handleApproval (some tok) (some wf)
        (handleApprovalNeeded st ev) d false).2 =
      handleApprovalNeeded st ev ∧
    (handleApprovalNeeded st ev).modalOpen = true := by
  refine ⟨?_, ?_, rfl, rfl, ?_, rfl⟩
  · intro ok
    cases ok <;>
      simp [handleApproval, handleApprovalNeeded, hrun, hev, hn,
        approveNode]
  · simp [handleApproval, handleApprovalNeeded, hrun, hev, hn]
  · simp [handleApproval, handleApprovalNeeded, hrun, hev, hn]

/-- C4 witness: a concrete approval round-trip at decision `"yes"`,
run `"r1"`, node `"n1"`. -/
theorem approval_request_and_modal_witness :
    (("yes" : String) = "yes" ∨ ("yes" : String) = "no") ∧
    (handleApproval (some "tok") (some "wf")
        (handleApprovalNeeded
          { currentRunId := some "r1", modalOpen := false,
            modalMessage := "", modalNodeId := "" }
          { run_id := some "r1", node_id := some "n1", message := none })
        "yes" true).1 =
      some { method := "POST"
             url := API_URL ++ "/api/workflows/" ++ "wf" ++ "/runs/" ++
               "r1" ++ "/nodes/" ++ "n1" ++ "/approve"
             body := some (Json.obj [("decision", Json.str "yes")]) } :=
  ⟨Or.inl rfl,
    (approval_request_and_modal "yes" "tok" "wf" "r1" "n1"
      (Or.inl rfl) (by decide)
      { currentRunId := some "r1", modalOpen := false,
        modalMessage := "", modalNodeId := "" } rfl
      { run_id := some "r1", node_id := some "n1", message := none } rfl
      { success := true, message := "", run_id := "r1" }).1 true⟩

/-- C5: run initiation sends the given input object unchanged as the
body of `POST {API_URL}/api/workflows/{id}/execute`, and on a success
response carrying a (non-empty) `run_id` the editor records that id as
the current run. -/
theorem execute_sends_input_and_records_run (workflowId : String)
    (input : Json) (st : EditorApprovalState) (resp : ExecuteResponse)
    (h : resp.run_id ≠ "") :
    executeWorkflow workflowId input =
      { method := "POST"
        url := API_URL ++ "/api/workflows/" ++ workflowId ++ "/execute"
        body := some input } ∧
    (handleExecuteWorkflow st (some resp)).currentRunId =
      some resp.run_id := by
  refine ⟨rfl, ?_⟩
  simp [handleExecuteWorkflow, h]

/-- C5 witness: executing workflow `"wf"` with input `{"age": 21}` and
a response with run id `"r9"`. -/
theorem execute_sends_input_and_records_run_witness :
    ("r9" : String) ≠ "" ∧
    (handleExecuteWorkflow
        { currentRunId := none, modalOpen := false, modalMessage := "",
          modalNodeId := "" }
        (some { run_id := "r9", message := "ok" })).currentRunId =
      some "r9" :=
  ⟨by decide,
    (execute_sends_input_and_records_run "wf"
      (Json.obj [("age", Json.num 21)])
      { currentRunId := none, modalOpen := false, modalMessage := "",
        modalNodeId := "" }
      { run_id := "r9", message := "ok" } (by decide)).2⟩

/-- C6: the WebSocket client subscribes at
`{WS_URL}/api/ws/workflows/{workflowId}?auth-token={token}`; a frame
that fails to parse changes nothing; the dispatch looks only at
`event_type` and fires a callback exactly for the eight recognized
kinds, while any other `event_type` leaves the node execution state
unchanged and fires no callback. -/
theorem ws_dispatch_recognized_events (workflowId token : String)
    (st : NodeExecutionStatus) (ev : WebSocketEvent) :
    wsUrl workflowId token =
      WS_URL ++ "/api/ws/workflows/" ++ workflowId ++ "?auth-token=" ++
        token ∧
    onMessageFrame st none = (st, []) ∧
    (ev.event_type ∉ recognizedEventTypes → onMessage st ev = (st, [])) ∧
    (ev.event_type ∈ recognizedEventTypes → (onMessage st ev).2 ≠ []) := by
  refine ⟨rfl, rfl, fun h => ?_, fun h => ?_⟩
  · unfold onMessage
    split
    all_goals
      first
        | rfl
        | (exfalso; exact h (by simp_all [recognizedEventTypes]))
  · unfold onMessage
    split
    all_goals
      try (rename_i h1 h2 h3 h4 h5 h6 h7 h8
           simp only [recognizedEventTypes, List.mem_cons,
             List.not_mem_nil, or_false] at h
           rcases h with h | h | h | h | h | h | h | h
           exacts [absurd h h1, absurd h h2, absurd h h3, absurd h h4,
             absurd h h5, absurd h h6, absurd h h7, absurd h h8])
    all_goals simp

/-- C6 witness: the unrecognized event type `"heartbeat"` is ignored,
and the recognized `"node_started"` fires a callback. -/
theorem ws_dispatch_recognized_events_witness :
    ("heartbeat" ∈ recognizedEventTypes → False) ∧
    onMessage [] { event_type := "heartbeat", node_id := none,
                   timestamp := none, duration := none } = ([], []) ∧
    (onMessage []
        { event_type := "node_started", node_id := some "n1",
          timestamp := some "t", duration := none }).2 ≠ [] := by
  refine ⟨by decide, ?_, ?_⟩
  · exact (ws_dispatch_recognized_events "w" "t" []
      { event_type := "heartbeat", node_id := none, timestamp := none,
        duration := none }).2.2.1 (by decide)
  · exact (ws_dispatch_recognized_events "w" "t" []
      { event_type := "node_started", node_id := some "n1",
        timestamp := some "t", duration := none }).2.2.2 (by decide)

/-- Filtering an index below the enumeration base removes nothing. -/
theorem enumFrom_filter_ne_all {α : Type} (i : Nat) :
    ∀ (n : Nat) (l : List α), i < n →
      (l.enumFrom n).filter (fun p => p.1 ≠ i) = l.enumFrom n
  | _, [], _ => rfl
  | n, a :: t, h => by
    have ih := enumFrom_filter_ne_all i (n + 1) t (by omega)
    simp only [List.enumFrom, List.filter_cons]
    have hc : (decide ((n, a).1 ≠ i)) = true := by
      simp only [decide_eq_true_eq]
      omega
    rw [hc]
    simp only [if_true, ih]

/-- Filtering one index out of an enumeration drops at most one
element. -/
theorem enumFrom_filter_ne_length {α : Type} (i : Nat) :
    ∀ (n : Nat) (l : List α),
      l.length - 1 ≤ ((l.enumFrom n).filter (fun p => p.1 ≠ i)).length ∧
      ((l.enumFrom n).filter (fun p => p.1 ≠ i)).length ≤ l.length
  | _, [] => by simp
  | n, a :: t => by
    have ih := enumFrom_filter_ne_length i (n + 1) t
    simp only [List.enumFrom, List.filter_cons, List.length_cons]
    by_cases hni : (n : Nat) = i
    · have hc : (decide ((n, a).1 ≠ i)) = false := by
        simp only [decide_eq_false_iff_not, ne_eq, not_not]
        exact hni
      rw [hc]
      simp only [Bool.false_eq_true, if_false]
      rw [enumFrom_filter_ne_all i (n + 1) t (by omega)]
      rw [List.enumFrom_length]
      omega
    · have hc : (decide ((n, a).1 ≠ i)) = true := by
        simp only [decide_eq_true_eq]
        exact hni
      rw [hc]
      simp only [if_true, List.length_cons]
      omega

/-- One form operation keeps the number of parameter rows between 1
and 3. -/
theorem toolFormStep_bounds (ps : List ToolParameter) (op : ToolFormOp)
    (h : 1 ≤ ps.length ∧ ps.length ≤ 3) :
    1 ≤ (applyToolFormOp ps op).length ∧
      (applyToolFormOp ps op).length ≤ 3 := by
  cases op with
  | add =>
    simp only [applyToolFormOp, AddToolModal.handleAddParameter]
    by_cases h3 : ps.length ≥ 3
    · simp only [h3, if_true]
      exact h
    · simp only [h3, if_false, List.length_append, List.length_cons,
        List.length_nil]
      omega
  | remove i =>
    simp only [applyToolFormOp, AddToolModal.handleRemoveParameter]
    by_cases h1 : ps.length ≤ 1
    · simp only [h1, if_true]
      exact h
    · have hb := enumFrom_filter_ne_length (α := ToolParameter) i 0 ps
      have henum : ps.enum = ps.enumFrom 0 := rfl
      simp only [h1, if_false, List.length_map, henum]
      omega
  | change i u =>
    simp only [applyToolFormOp, AddToolModal.handleParameterChange,
      List.length_map, List.enum_length]
    exact h

/-- Every `parameters` state reachable in `AddToolModal` has between 1
and 3 rows. -/
theorem toolFormReachable_bounds (ps : List ToolParameter)
    (h : reachableToolForm ps) : 1 ≤ ps.length ∧ ps.length ≤ 3 := by
  obtain ⟨ops, rfl⟩ := h
  suffices H : ∀ (l : List ToolFormOp) (qs : List ToolParameter),
      1 ≤ qs.length ∧ qs.length ≤ 3 →
      1 ≤ (l.foldl applyToolFormOp qs).length ∧
        (l.foldl applyToolFormOp qs).length ≤ 3 by
    exact H ops AddToolModal.initialParameters (by decide)
  intro l
  induction l with
  | nil =>
    intro qs hq
    exact hq
  | cons op rest ih =>
    intro qs hq
    exact ih (applyToolFormOp qs op) (toolFormStep_bounds qs op hq)

/-- C8: a tool create or update whose parameter list has more than 3
entries throws `"Maximum 3 parameters allowed"` before any HTTP
request; the creation form filters empty rows and rejects an empty
result; and any parameter list the form successfully submits has
between 1 and 3 entries — so `createTool` accepts it and issues the
request. -/
theorem tool_parameters_between_one_and_three
    (data : CreateToolData) (toolId : String)
    (ps v : List ToolParameter)
    (hbig : 3 < data.parameters.length)
    (hreach : reachableToolForm ps)
    (hsubmit : AddToolModal.submitParameters ps = Except.ok v) :
    createTool data = Except.error "Maximum 3 parameters allowed" ∧
    (∀ qs : List ToolParameter, 3 < qs.length →
      updateTool toolId (some qs) =
        Except.error "Maximum 3 parameters allowed") ∧
    1 ≤ v.length ∧ v.length ≤ 3 ∧
    (∀ d2 : CreateToolData, d2.parameters = v →
      createTool d2 =
        Except.ok { method := "POST", url := API_URL ++ "/api/tools",
                    body := some Json.null }) := by
  have hps := toolFormReachable_bounds ps hreach
  have hv : v = validParameters ps ∧ (validParameters ps).length ≠ 0 := by
    rw [AddToolModal.submitParameters] at hsubmit
    by_cases h0 : (validParameters ps).length = 0
    · simp [h0] at hsubmit
    · simp [h0] at hsubmit
      exact ⟨hsubmit.symm, h0⟩
  have hle : (validParameters ps).length ≤ ps.length :=
    List.length_filter_le _ ps
  refine ⟨?_, ?_, ?_, ?_, ?_⟩
  · simp [createTool, Nat.lt_iff_add_one_le.mp hbig]
    omega
  · intro qs hqs
    simp [updateTool]
    omega
  · rw [hv.1]
    have := hv.2
    omega
  · rw [hv.1]
    omega
  · intro d2 hd2
    have hlen : ¬ d2.parameters.length > 3 := by
      rw [hd2, hv.1]
      omega
    simp [createTool, hlen]

/-- C8 witness: a form state reached by editing the initial row to
`("city", "the city name")` submits one parameter; a create request
with four parameters is rejected. -/
theorem tool_parameters_between_one_and_three_witness :
    3 < ([⟨"a", "b"⟩, ⟨"a", "b"⟩, ⟨"a", "b"⟩,
          ⟨"a", "b"⟩] : List ToolParameter).length ∧
    createTool
        { name := "weather_api", description := "d",
          api_url := "https://example.com", method := "GET",
          request_body := none, headers := none,
          parameters := [⟨"a", "b"⟩, ⟨"a", "b"⟩, ⟨"a", "b"⟩,
            ⟨"a", "b"⟩] } =
      Except.error "Maximum 3 parameters allowed" ∧
    1 ≤ ([⟨"city", "the city name"⟩] : List ToolParameter).length := by
  have happ :=
    tool_parameters_between_one_and_three
      { name := "weather_api", description := "d",
        api_url := "https://example.com", method := "GET",
        request_body := none, headers := none,
        parameters := [⟨"a", "b"⟩, ⟨"a", "b"⟩, ⟨"a", "b"⟩,
          ⟨"a", "b"⟩] }
      "tool1"
      [⟨"city", "the city name"⟩] [⟨"city", "the city name"⟩]
      (by decide)
      ⟨[ToolFormOp.change 0 (fun _ => ⟨"city", "the city name"⟩)], rfl⟩
      (by rfl)
  exact ⟨by decide, happ.1, happ.2.2.1⟩

/-- C9: submitting the run-workflow form with input that fails to
parse sets the error banner and neither calls `onSubmit` nor closes or
resets the modal; input that parses is handed to `onSubmit` exactly as
parsed, and the modal closes and resets. -/
theorem run_modal_submit_behavior (st : RunModalState) (v : Json) :
    RunWorkflowModal.handleSubmit st none =
      ({ st with
          error := some "Invalid JSON format. Please check your input." },
        none) ∧
    RunWorkflowModal.handleSubmit st (some v) =
      ({ st with error := none, isOpen := false,
                 jsonInput := runModalResetText }, some v) :=
  ⟨rfl, rfl⟩

/-- C10: each close with attempt counter `n < 5` schedules one
reconnect after `min(1000·2^n, 10000)` ms and increments the counter;
once the counter is 5 no reconnect is scheduled; any run of
consecutive closes schedules at most 5 reconnects; a successful open
resets the counter to 0. -/
theorem ws_reconnect_policy :
    (∀ n, n < maxReconnectAttempts →
      onCloseReconnect n = (some (min (1000 * 2 ^ n) 10000), n + 1)) ∧
    (∀ n, maxReconnectAttempts ≤ n → onCloseReconnect n = (none, n)) ∧
    (∀ k, reconnectsScheduled 0 k ≤ 5) ∧
    (∀ n, onOpenReset n = 0) := by
  have hgen : ∀ (k n : Nat),
      reconnectsScheduled n k ≤ maxReconnectAttempts - n := by
    intro k
    induction k with
    | zero =>
      intro n
      simp [reconnectsScheduled]
    | succ k ih =>
      intro n
      rw [reconnectsScheduled, onCloseReconnect]
      by_cases hn : n < maxReconnectAttempts
      · simp only [hn, if_true]
        have := ih (n + 1)
        rw [maxReconnectAttempts] at *
        omega
      · simp only [hn, if_false]
        exact ih n
  refine ⟨?_, ?_, ?_, fun _ => rfl⟩
  · intro n hn
    simp [onCloseReconnect, hn]
  · intro n hn
    simp [onCloseReconnect, Nat.not_lt.mpr hn]
  · intro k
    have := hgen k 0
    rw [maxReconnectAttempts] at this
    omega

/-- C10 witness: from a fresh counter, the first close schedules a
1000 ms reconnect, a counter of 5 schedules nothing, seven consecutive
closes schedule at most five reconnects, and an open resets. -/
theorem ws_reconnect_policy_witness :
    (0 < maxReconnectAttempts ∧
      onCloseReconnect 0 = (some 1000, 1)) ∧
    (maxReconnectAttempts ≤ 5 ∧ onCloseReconnect 5 = (none, 5)) ∧
    reconnectsScheduled 0 7 ≤ 5 ∧
    onOpenReset 3 = 0 :=
  ⟨⟨by decide, ws_reconnect_policy.1 0 (by decide)⟩,
   ⟨by decide, ws_reconnect_policy.2.1 5 (by decide)⟩,
   ws_reconnect_policy.2.2.1 7,
   ws_reconnect_policy.2.2.2 3⟩
